import Mathlib

/-!
Verification of the go-blog CRUD service: a shallow embedding of the
request handlers (httpHandlers) and of the storage layer (db package),
over a relational state holding the `users` and `posts` tables with the
schema's constraints (users: PRIMARY KEY id, UNIQUE email; posts:
PRIMARY KEY id, FOREIGN KEY user_id REFERENCES users(id)
ON DELETE CASCADE, title NOT NULL).

Infrastructure failures (lost connections, scan decode failures) are not
modelled: every SQL statement either succeeds or fails on a schema
constraint.  Identifier generation is passed in explicitly, mirroring the
injected IDManager.
-/

/-- models.User: one row of the `users` table. -/
structure User where
  id : String
  name : String
  email : String
deriving DecidableEq, Repr

/-- models.Post: one row of the `posts` table. -/
structure Post where
  id : String
  userID : String
  title : String
  content : String
deriving DecidableEq, Repr

/-- The relational store: contents of the `users` and `posts` tables. -/
structure BlogState where
  users : List User
  posts : List Post
deriving DecidableEq, Repr

/-- `SELECT * FROM users WHERE id = $1` read through QueryRow/Scan:
the first matching row, or none when Scan reports sql.ErrNoRows. -/
def queryUserRow (s : BlogState) (id : String) : Option User :=
  s.users.find? (fun u => u.id == id)

/-- `SELECT * FROM posts WHERE id = $1` through QueryRow/Scan. -/
def queryPostRow (s : BlogState) (postID : String) : Option Post :=
  s.posts.find? (fun p => p.id == postID)

/-- `SELECT * FROM posts WHERE user_id = $1`: every matching row in order. -/
def queryPostsByUser (s : BlogState) (userID : String) : List Post :=
  s.posts.filter (fun p => p.userID == userID)

/-- `INSERT INTO users(id, name, email) VALUES($1, $2, $3)` under
PRIMARY KEY (id) and UNIQUE (email): rejects a duplicate id or email,
otherwise appends the row. -/
def insertUserRow (s : BlogState) (id name email : String) :
    Except String BlogState :=
  if s.users.any (fun u => u.id == id) then
    .error "duplicate key value violates unique constraint users_pkey"
  else if s.users.any (fun u => u.email == email) then
    .error "duplicate key value violates unique constraint users_email_key"
  else
    .ok ⟨s.users ++ [⟨id, name, email⟩], s.posts⟩

/-- `UPDATE users SET name = $1 WHERE id = $2`: no constraint mentions
`name`, so the statement always succeeds (a non-matching id updates
zero rows). -/
def updateUserNameRow (s : BlogState) (name id : String) : BlogState :=
  ⟨s.users.map (fun u => if u.id == id then ⟨u.id, name, u.email⟩ else u),
   s.posts⟩

/-- `UPDATE users SET email = $1 WHERE id = $2` under UNIQUE (email):
fails when a row matches the id while a different row already holds the
email, otherwise rewrites every matching row. -/
def updateUserEmailRow (s : BlogState) (email id : String) :
    Except String BlogState :=
  if s.users.any (fun u => u.id == id) &&
     s.users.any (fun u => u.id != id && u.email == email) then
    .error "duplicate key value violates unique constraint users_email_key"
  else
    .ok ⟨s.users.map (fun u => if u.id == id then ⟨u.id, u.name, email⟩ else u),
         s.posts⟩

/-- `DELETE FROM users WHERE id = $1`; the posts table's
FOREIGN KEY (user_id) ... ON DELETE CASCADE removes every owned post. -/
def deleteUserRows (s : BlogState) (id : String) : BlogState :=
  ⟨s.users.filter (fun u => u.id != id),
   s.posts.filter (fun p => p.userID != id)⟩

/-- `INSERT INTO posts(id, user_id, title, content) VALUES($1,$2,$3,$4)`
under PRIMARY KEY (id) and FOREIGN KEY (user_id) REFERENCES users(id):
rejects a duplicate post id or a user_id matching no user row. -/
def insertPostRow (s : BlogState) (id userID title content : String) :
    Except String BlogState :=
  if s.posts.any (fun p => p.id == id) then
    .error "duplicate key value violates unique constraint posts_pkey"
  else if !(s.users.any (fun u => u.id == userID)) then
    .error "insert or update on table posts violates foreign key constraint"
  else
    .ok ⟨s.users, s.posts ++ [⟨id, userID, title, content⟩]⟩

/-- `UPDATE posts SET title = $1 WHERE id = $2`: always succeeds. -/
def updatePostTitleRow (s : BlogState) (title postID : String) : BlogState :=
  ⟨s.users,
   s.posts.map (fun p =>
     if p.id == postID then ⟨p.id, p.userID, title, p.content⟩ else p)⟩

/-- `UPDATE posts SET content = $1 WHERE id = $2`: always succeeds. -/
def updatePostContentRow (s : BlogState) (content postID : String) : BlogState :=
  ⟨s.users,
   s.posts.map (fun p =>
     if p.id == postID then ⟨p.id, p.userID, p.title, content⟩ else p)⟩

/-- `DELETE FROM posts WHERE id = $1`: always succeeds. -/
def deletePostRow (s : BlogState) (postID : String) : BlogState :=
  ⟨s.users, s.posts.filter (fun p => p.id != postID)⟩

/-- store.GetUser: QueryRow then Scan; sql.ErrNoRows becomes (nil, nil),
so an absent id yields `.ok none`; `.error` would arise only from an
infrastructure failure, which the model excludes. -/
def GetUser (s : BlogState) (id : String) : Except String (Option User) :=
  .ok (queryUserRow s id)

/-- store.CreateUser: inserts a row under the generated id and returns
that id; an insert failure is wrapped and the state is unchanged. -/
def CreateUser (s : BlogState) (genID name email : String) :
    Except String String × BlogState :=
  match insertUserRow s genID name email with
  | .error e => (.error ("error while inserting user: " ++ e), s)
  | .ok s1 => (.ok genID, s1)

/-- store.UpdateUser: GetUser first; absent id is an error.  Then one
single-field UPDATE per non-empty field, name before email, each applied
to the state left by the previous one. -/
def UpdateUser (s : BlogState) (id name email : String) :
    Except String String × BlogState :=
  match GetUser s id with
  | .error e => (.error ("failed to check for existing user: " ++ e), s)
  | .ok none => (.error "user doesn't exist - create one first", s)
  | .ok (some _) =>
    let s1 := if name != "" then updateUserNameRow s name id else s
    if email != "" then
      match updateUserEmailRow s1 email id with
      | .error e => (.error ("error while updating user: " ++ e), s1)
      | .ok s2 => (.ok id, s2)
    else
      (.ok id, s1)

/-- store.DeleteUser: GetUser first; absent id is an error, otherwise
the row is deleted (cascading to its posts) and the id is returned. -/
def DeleteUser (s : BlogState) (id : String) :
    Except String String × BlogState :=
  match GetUser s id with
  | .error e => (.error e, s)
  | .ok none => (.error ("user does not exist for ID: " ++ id), s)
  | .ok (some _) => (.ok id, deleteUserRows s id)

/-- store.GetAllPosts: Query then a Scan loop; with no matching rows the
loop never runs and the nil slice is returned with a nil error. -/
def GetAllPosts (s : BlogState) (userID : String) :
    Except String (List Post) :=
  .ok (queryPostsByUser s userID)

/-- store.GetPost: QueryRow then Scan; sql.ErrNoRows becomes (nil, nil). -/
def GetPost (s : BlogState) (postID : String) : Except String (Option Post) :=
  .ok (queryPostRow s postID)

/-- store.CreatePost: inserts a row under the generated id. -/
def CreatePost (s : BlogState) (genID userID title content : String) :
    Except String String × BlogState :=
  match insertPostRow s genID userID title content with
  | .error e => (.error ("error creating new post: " ++ e), s)
  | .ok s1 => (.ok genID, s1)

/-- store.UpdatePost: GetPost first; absent id is an error.  Then one
single-field UPDATE per non-empty field, title before content. -/
def UpdatePost (s : BlogState) (postID title content : String) :
    Except String String × BlogState :=
  match GetPost s postID with
  | .error e => (.error ("error getting post: " ++ e), s)
  | .ok none => (.error ("post doesn't exist for ID: " ++ postID), s)
  | .ok (some _) =>
    let s1 := if title != "" then updatePostTitleRow s title postID else s
    let s2 := if content != "" then updatePostContentRow s1 content postID else s1
    (.ok postID, s2)

/-- store.DeletePost: GetPost first; absent id is an error. -/
def DeletePost (s : BlogState) (postID : String) :
    Except String String × BlogState :=
  match GetPost s postID with
  | .error e => (.error ("error getting post: " ++ e), s)
  | .ok none => (.error "cannot delete post that doesn't exist", s)
  | .ok (some _) => (.ok postID, deletePostRow s postID)

/-- ErrBadRequest from httpHandlers. -/
def ErrBadRequest : String := "Invalid request: missing required parameters"

/-- Outcome of one handler invocation: a 200 response carrying the typed
body, an http.Error with its status and message, or a runtime panic
(a method call on a nil error value). -/
inductive HandlerOut (α : Type) where
  | ok (body : α)
  | httpError (status : Nat) (msg : String)
  | panicked
deriving DecidableEq, Repr

structure GetUserRequest where
  id : String
deriving DecidableEq, Repr

structure GetUserResponse where
  user : Option User
deriving DecidableEq, Repr

structure CreateUserRequest where
  email : String
  name : String
deriving DecidableEq, Repr

structure CreateUserResponse where
  id : String
deriving DecidableEq, Repr

structure UpdateUserRequest where
  id : String
  email : String
  name : String
deriving DecidableEq, Repr

structure UpdateUserResponse where
  id : String
deriving DecidableEq, Repr

structure DeleteUserRequest where
  id : String
deriving DecidableEq, Repr

structure DeleteUserResponse where
  id : String
deriving DecidableEq, Repr

structure CreatePostRequest where
  userID : String
  title : String
  content : String
deriving DecidableEq, Repr

structure CreatePostResponse where
  id : String
deriving DecidableEq, Repr

structure UpdatePostRequest where
  id : String
  title : String
  content : String
deriving DecidableEq, Repr

structure UpdatePostResponse where
  id : String
deriving DecidableEq, Repr

structure GetPostRequest where
  id : String
deriving DecidableEq, Repr

structure GetPostResponse where
  post : Option Post
deriving DecidableEq, Repr

structure GetAllPostsRequest where
  userID : String
deriving DecidableEq, Repr

structure GetAllPostsResponse where
  posts : List Post
deriving DecidableEq, Repr

structure DeletePostRequest where
  id : String
deriving DecidableEq, Repr

structure DeletePostResponse where
  id : String
deriving DecidableEq, Repr

/-- App.HandleGetUser.  `body` is the outcome of decoding the request
body (an error message on decode failure). -/
def HandleGetUser (s : BlogState) (body : Except String GetUserRequest) :
    HandlerOut GetUserResponse × BlogState :=
  match body with
  | .error e => (.httpError 400 e, s)
  | .ok req =>
    if req.id == "" then (.httpError 400 ErrBadRequest, s)
    else
      match GetUser s req.id with
      | .error e => (.httpError 500 e, s)
      | .ok user => (.ok ⟨user⟩, s)

/-- App.HandleCreateUser: email is the required field. -/
def HandleCreateUser (s : BlogState) (genID : String)
    (body : Except String CreateUserRequest) :
    HandlerOut CreateUserResponse × BlogState :=
  match body with
  | .error e => (.httpError 400 e, s)
  | .ok req =>
    if req.email == "" then (.httpError 400 ErrBadRequest, s)
    else
      match CreateUser s genID req.name req.email with
      | (.error e, s1) => (.httpError 500 e, s1)
      | (.ok userID, s1) => (.ok ⟨userID⟩, s1)

/-- App.HandleUpdateUser: id is the required field. -/
def HandleUpdateUser (s : BlogState)
    (body : Except String UpdateUserRequest) :
    HandlerOut UpdateUserResponse × BlogState :=
  match body with
  | .error e => (.httpError 400 e, s)
  | .ok req =>
    if req.id == "" then (.httpError 400 ErrBadRequest, s)
    else
      match UpdateUser s req.id req.name req.email with
      | (.error e, s1) => (.httpError 500 e, s1)
      | (.ok userID, s1) => (.ok ⟨userID⟩, s1)

/-- App.HandleDeleteUser.  On an empty id the source passes `err` — the
decode error, which is nil on this path — to http.Error, so evaluating
err.Error() dereferences a nil interface and the handler panics instead
of writing the response. -/
def HandleDeleteUser (s : BlogState)
    (body : Except String DeleteUserRequest) :
    HandlerOut DeleteUserResponse × BlogState :=
  match body with
  | .error e => (.httpError 400 e, s)
  | .ok req =>
    if req.id == "" then (.panicked, s)
    else
      match DeleteUser s req.id with
      | (.error e, s1) => (.httpError 500 e, s1)
      | (.ok id, s1) => (.ok ⟨id⟩, s1)

/-- App.HandleGetAllPosts: user_id is the required field. -/
def HandleGetAllPosts (s : BlogState)
    (body : Except String GetAllPostsRequest) :
    HandlerOut GetAllPostsResponse × BlogState :=
  match body with
  | .error e => (.httpError 400 e, s)
  | .ok req =>
    if req.userID == "" then (.httpError 400 ErrBadRequest, s)
    else
      match GetAllPosts s req.userID with
      | .error e => (.httpError 500 e, s)
      | .ok posts => (.ok ⟨posts⟩, s)

/-- App.HandleGetPost: id is the required field. -/
def HandleGetPost (s : BlogState) (body : Except String GetPostRequest) :
    HandlerOut GetPostResponse × BlogState :=
  match body with
  | .error e => (.httpError 400 e, s)
  | .ok req =>
    if req.id == "" then (.httpError 400 ErrBadRequest, s)
    else
      match GetPost s req.id with
      | .error e => (.httpError 500 e, s)
      | .ok post => (.ok ⟨post⟩, s)

/-- App.HandleCreatePost: user_id is the required field. -/
def HandleCreatePost (s : BlogState) (genID : String)
    (body : Except String CreatePostRequest) :
    HandlerOut CreatePostResponse × BlogState :=
  match body with
  | .error e => (.httpError 400 e, s)
  | .ok req =>
    if req.userID == "" then (.httpError 400 ErrBadRequest, s)
    else
      match CreatePost s genID req.userID req.title req.content with
      | (.error e, s1) => (.httpError 500 e, s1)
      | (.ok postID, s1) => (.ok ⟨postID⟩, s1)

/-- App.HandleUpdatePost: id is the required field. -/
def HandleUpdatePost (s : BlogState)
    (body : Except String UpdatePostRequest) :
    HandlerOut UpdatePostResponse × BlogState :=
  match body with
  | .error e => (.httpError 400 e, s)
  | .ok req =>
    if req.id == "" then (.httpError 400 ErrBadRequest, s)
    else
      match UpdatePost s req.id req.title req.content with
      | (.error e, s1) => (.httpError 500 e, s1)
      | (.ok postID, s1) => (.ok ⟨postID⟩, s1)

/-- App.HandleDeletePost: id is the required field. -/
def HandleDeletePost (s : BlogState)
    (body : Except String DeletePostRequest) :
    HandlerOut DeletePostResponse × BlogState :=
  match body with
  | .error e => (.httpError 400 e, s)
  | .ok req =>
    if req.id == "" then (.httpError 400 ErrBadRequest, s)
    else
      match DeletePost s req.id with
      | (.error e, s1) => (.httpError 500 e, s1)
      | (.ok postID, s1) => (.ok ⟨postID⟩, s1)

/-- One storage-layer operation, with the generated identifier made an
explicit argument where the operation consumes one. -/
inductive Op where
  | createUser (genID name email : String)
  | updateUser (id name email : String)
  | deleteUser (id : String)
  | createPost (genID userID title content : String)
  | updatePost (postID title content : String)
  | deletePost (postID : String)
deriving DecidableEq, Repr

/-- The state an operation leaves behind, whether it succeeds or fails. -/
def applyOp (s : BlogState) : Op → BlogState
  | .createUser g n e => (CreateUser s g n e).2
  | .updateUser i n e => (UpdateUser s i n e).2
  | .deleteUser i => (DeleteUser s i).2
  | .createPost g u t c => (CreatePost s g u t c).2
  | .updatePost p t c => (UpdatePost s p t c).2
  | .deletePost p => (DeletePost s p).2

/-- The store right after table creation: both tables empty. -/
def initialState : BlogState := ⟨[], []⟩

/-- The state reached by running a sequence of storage operations from
the empty store. -/
def runOps (ops : List Op) : BlogState :=
  List.foldl applyOp initialState ops

/-- Referential integrity: every post's user_id names an existing user. -/
def RefIntegrity (s : BlogState) : Prop :=
  ∀ p ∈ s.posts, ∃ u ∈ s.users, u.id = p.userID

/-- The store invariant the schema maintains: post ids are unique
(PRIMARY KEY) and referential integrity holds (FOREIGN KEY). -/
def StoreInv (s : BlogState) : Prop :=
  (s.posts.map Post.id).Nodup ∧ RefIntegrity s

instance (s : BlogState) : Decidable (RefIntegrity s) := by
  unfold RefIntegrity; infer_instance

instance (s : BlogState) : Decidable (StoreInv s) := by
  unfold StoreInv; infer_instance

/-- Whether a storage-layer result is an error. -/
def isErr {ε α : Type} : Except ε α → Bool
  | .error _ => true
  | .ok _ => false

/-- A store holding one user and one post owned by that user. -/
def demoState : BlogState :=
  ⟨[⟨"u1", "tiny cat", "tiny@cat.com"⟩], [⟨"p1", "u1", "title", "content"⟩]⟩

/-- A store holding two users with distinct emails and no posts. -/
def twoUsers : BlogState :=
  ⟨[⟨"u1", "alice", "a@x"⟩, ⟨"u2", "bob", "b@x"⟩], []⟩

/-- Claim C1.  The spec requires every validation failure to produce a
400 response with the fixed "missing required parameters" message, and
the eight other handlers do exactly that; HandleDeleteUser instead
passes the nil decode error to http.Error on its empty-id branch, so on
a body that decodes to an empty id it panics before writing any
response — the storage layer is not called and the store is unchanged,
but no 400 response with the fixed message is produced. -/
theorem handleDeleteUser_empty_id_panics :
    HandleDeleteUser demoState (.ok ⟨""⟩) = (.panicked, demoState) ∧
    (HandleDeleteUser demoState (.ok ⟨""⟩)).1 ≠
      .httpError 400 ErrBadRequest := by
  refine ⟨rfl, ?_⟩
  intro h
  exact HandlerOut.noConfusion h

/-- Claim C8.  Update is not atomic on error: UpdateUser issues one
single-field UPDATE per non-empty field in sequence, so in this
execution the name update succeeds and the email update then fails on
the UNIQUE (email) constraint; the operation returns an error although
the new name has already been applied to the store. -/
theorem updateUser_not_atomic_on_error :
    UpdateUser twoUsers "u1" "carol" "b@x" =
      (.error ("error while updating user: " ++
        "duplicate key value violates unique constraint users_email_key"),
       ⟨[⟨"u1", "carol", "a@x"⟩, ⟨"u2", "bob", "b@x"⟩], []⟩) ∧
    (⟨[⟨"u1", "carol", "a@x"⟩, ⟨"u2", "bob", "b@x"⟩], []⟩ : BlogState) ≠
      twoUsers := by
  refine ⟨rfl, by decide⟩

/-- Claim C10.  Every handler with an identifier field (id or user_id)
stops before invoking the storage layer when that field is empty: seven
of them — including the read-only GetUser, GetPost and GetAllPosts —
respond 400 with the fixed message and leave the store untouched;
HandleDeleteUser also stops before the storage call and leaves the
store untouched, but panics on the nil decode error instead of writing
the 400 response.  In every case no storage operation runs on an empty
identifier. -/
theorem empty_identifier_stops_before_storage (s : BlogState)
    (n e t c : String) :
    HandleGetUser s (.ok ⟨""⟩) = (.httpError 400 ErrBadRequest, s) ∧
    HandleUpdateUser s (.ok ⟨"", e, n⟩) = (.httpError 400 ErrBadRequest, s) ∧
    HandleGetPost s (.ok ⟨""⟩) = (.httpError 400 ErrBadRequest, s) ∧
    HandleGetAllPosts s (.ok ⟨""⟩) = (.httpError 400 ErrBadRequest, s) ∧
    HandleCreatePost s c (.ok ⟨"", t, c⟩) = (.httpError 400 ErrBadRequest, s) ∧
    HandleUpdatePost s (.ok ⟨"", t, c⟩) = (.httpError 400 ErrBadRequest, s) ∧
    HandleDeletePost s (.ok ⟨""⟩) = (.httpError 400 ErrBadRequest, s) ∧
    HandleDeleteUser s (.ok ⟨""⟩) = (.panicked, s) :=
  ⟨rfl, rfl, rfl, rfl, rfl, rfl, rfl, rfl⟩

lemma insertUserRow_ok (s s1 : BlogState) (i n e : String)
    (h : insertUserRow s i n e = .ok s1) :
    (∀ u ∈ s.users, u.id ≠ i) ∧ s1 = ⟨s.users ++ [⟨i, n, e⟩], s.posts⟩ := by
  unfold insertUserRow at h
  split at h
  · simp at h
  · split at h
    · simp at h
    · rename_i h1 h2
      refine ⟨fun u hu hid => h1 ?_, by injection h with h3; exact h3.symm⟩
      exact List.any_eq_true.mpr ⟨u, hu, by simp [hid]⟩

/-- Claim C6: creating a user with a given name and email and then
getting it by the identifier the create returned yields a user with
exactly that identifier, name and email (stated on the success path of
the create, as exercised by the spec's scenario). -/
theorem createUser_then_getUser (s : BlogState) (g n e : String)
    (hok : (CreateUser s g n e).1 = .ok g) :
    GetUser (CreateUser s g n e).2 g = .ok (some ⟨g, n, e⟩) := by
  unfold CreateUser at hok ⊢
  cases hins : insertUserRow s g n e with
  | error msg => simp [hins] at hok
  | ok s1 =>
    simp only [hins]
    obtain ⟨hfresh, rfl⟩ := insertUserRow_ok s s1 g n e hins
    unfold GetUser queryUserRow
    have h1 : s.users.find? (fun u => u.id == g) = none := by
      rw [List.find?_eq_none]
      intro u hu
      simp [hfresh u hu]
    simp [List.find?_append, h1, List.find?]

/-- Claim C6 witness: the create-then-get round trip on the empty
store, with the test suite's data. -/
theorem createUser_then_getUser_witness :
    GetUser (CreateUser initialState "u1" "tiny cat" "tiny@cat.com").2 "u1" =
      .ok (some ⟨"u1", "tiny cat", "tiny@cat.com"⟩) :=
  createUser_then_getUser initialState "u1" "tiny cat" "tiny@cat.com" rfl

lemma insertUserRow_error_iff (s : BlogState) (i n e : String) :
    isErr (insertUserRow s i n e) = true ↔
      ∃ u ∈ s.users, u.id = i ∨ u.email = e := by
  unfold insertUserRow
  split
  · rename_i h
    simp only [isErr, true_iff]
    obtain ⟨u, hu, hp⟩ := List.any_eq_true.mp h
    exact ⟨u, hu, .inl (by simpa using hp)⟩
  · split
    · rename_i h1 h2
      simp only [isErr, true_iff]
      obtain ⟨u, hu, hp⟩ := List.any_eq_true.mp h2
      exact ⟨u, hu, .inr (by simpa using hp)⟩
    · rename_i h1 h2
      simp only [isErr, Bool.false_eq_true, false_iff]
      rintro ⟨u, hu, h | h⟩
      · exact h1 (List.any_eq_true.mpr ⟨u, hu, by simp [h]⟩)
      · exact h2 (List.any_eq_true.mpr ⟨u, hu, by simp [h]⟩)

lemma insertPostRow_error_iff (s : BlogState) (i uid t c : String) :
    isErr (insertPostRow s i uid t c) = true ↔
      (∃ p ∈ s.posts, p.id = i) ∨ ¬ ∃ u ∈ s.users, u.id = uid := by
  unfold insertPostRow
  split
  · rename_i h
    simp only [isErr, true_iff]
    obtain ⟨p, hp, hpe⟩ := List.any_eq_true.mp h
    exact .inl ⟨p, hp, by simpa using hpe⟩
  · split
    · rename_i h1 h2
      simp only [isErr, true_iff]
      refine .inr fun ⟨u, hu, hid⟩ => ?_
      rw [Bool.not_eq_true', ← Bool.not_eq_true] at h2
      exact h2 (List.any_eq_true.mpr ⟨u, hu, by simp [hid]⟩)
    · rename_i h1 h2
      simp only [isErr, Bool.false_eq_true, false_iff]
      rintro (⟨p, hp, hpe⟩ | h)
      · exact h1 (List.any_eq_true.mpr ⟨p, hp, by simp [hpe]⟩)
      · rw [Bool.not_eq_true', Bool.not_eq_false] at h2
        obtain ⟨u, hu, hid⟩ := List.any_eq_true.mp h2
        exact h ⟨u, hu, by simpa using hid⟩

lemma createUser_err_propagates (s : BlogState) (g n e : String) :
    isErr (CreateUser s g n e).1 = isErr (insertUserRow s g n e) ∧
    (isErr (insertUserRow s g n e) = true → (CreateUser s g n e).2 = s) := by
  unfold CreateUser
  cases h : insertUserRow s g n e <;> simp [isErr]

lemma createPost_err_propagates (s : BlogState) (g uid t c : String) :
    isErr (CreatePost s g uid t c).1 = isErr (insertPostRow s g uid t c) ∧
    (isErr (insertPostRow s g uid t c) = true → (CreatePost s g uid t c).2 = s) := by
  unfold CreatePost
  cases h : insertPostRow s g uid t c <;> simp [isErr]

/-- Claim C7: create fails exactly when a uniqueness or
referential-integrity constraint is violated — for CreateUser when some
row already holds the generated id or the given email, for CreatePost
when some row already holds the generated id or the user_id matches no
user — and in every failing case the store is unchanged. -/
theorem create_fails_iff_constraint_violation :
    (∀ (s : BlogState) (g n e : String),
      (isErr (CreateUser s g n e).1 = true ↔
        ∃ u ∈ s.users, u.id = g ∨ u.email = e) ∧
      (isErr (CreateUser s g n e).1 = true → (CreateUser s g n e).2 = s)) ∧
    (∀ (s : BlogState) (g uid t c : String),
      (isErr (CreatePost s g uid t c).1 = true ↔
        (∃ p ∈ s.posts, p.id = g) ∨ ¬ ∃ u ∈ s.users, u.id = uid) ∧
      (isErr (CreatePost s g uid t c).1 = true → (CreatePost s g uid t c).2 = s)) := by
  constructor
  · intro s g n e
    have h := createUser_err_propagates s g n e
    rw [h.1]
    exact ⟨insertUserRow_error_iff s g n e, h.2⟩
  · intro s g uid t c
    have h := createPost_err_propagates s g uid t c
    rw [h.1]
    exact ⟨insertPostRow_error_iff s g uid t c, h.2⟩

/-- Claim C7 witness: a duplicate-email user create and a post create
with an unknown user_id both fail and leave the two-user store as it
was. -/
theorem create_fails_witness :
    isErr (CreateUser twoUsers "u9" "carla" "a@x").1 = true ∧
    (CreateUser twoUsers "u9" "carla" "a@x").2 = twoUsers ∧
    isErr (CreatePost twoUsers "p9" "ghost" "t" "c").1 = true ∧
    (CreatePost twoUsers "p9" "ghost" "t" "c").2 = twoUsers := by
  have hu := create_fails_iff_constraint_violation.1 twoUsers "u9" "carla" "a@x"
  have hp := create_fails_iff_constraint_violation.2 twoUsers "p9" "ghost" "t" "c"
  have hu1 : isErr (CreateUser twoUsers "u9" "carla" "a@x").1 = true :=
    hu.1.mpr ⟨⟨"u1", "alice", "a@x"⟩, by decide, .inr rfl⟩
  have hp1 : isErr (CreatePost twoUsers "p9" "ghost" "t" "c").1 = true :=
    hp.1.mpr (.inr (by decide))
  exact ⟨hu1, hu.2 hu1, hp1, hp.2 hp1⟩

lemma queryUserRow_eq_none (s : BlogState) (i : String)
    (h : ∀ u ∈ s.users, u.id ≠ i) : queryUserRow s i = none := by
  rw [queryUserRow, List.find?_eq_none]
  intro u hu
  simpa using h u hu

lemma queryPostRow_eq_none (s : BlogState) (i : String)
    (h : ∀ p ∈ s.posts, p.id ≠ i) : queryPostRow s i = none := by
  rw [queryPostRow, List.find?_eq_none]
  intro p hp
  simpa using h p hp

/-- Claim C3: when no row matches the identifier, GetUser and GetPost
return an absent entity with no error, and (for an identifier that
passes the handlers' non-empty validation) the handlers respond 200
with an absent payload; in this model an error arises only from
infrastructure failure, which never occurs. -/
theorem get_absent_ok_none_and_200 (s : BlogState) (i : String)
    (hu : ∀ u ∈ s.users, u.id ≠ i) (hp : ∀ p ∈ s.posts, p.id ≠ i) :
    GetUser s i = .ok none ∧ GetPost s i = .ok none ∧
    (i ≠ "" →
      HandleGetUser s (.ok ⟨i⟩) = (.ok ⟨none⟩, s) ∧
      HandleGetPost s (.ok ⟨i⟩) = (.ok ⟨none⟩, s)) := by
  have h1 := queryUserRow_eq_none s i hu
  have h2 := queryPostRow_eq_none s i hp
  refine ⟨by rw [GetUser, h1], by rw [GetPost, h2], fun hne => ?_⟩
  have hbeq : (i == "") = false := by simpa using hne
  constructor
  · simp [HandleGetUser, hbeq, GetUser, h1]
  · simp [HandleGetPost, hbeq, GetPost, h2]

/-- Claim C3 witness: an id absent from the demo store. -/
theorem get_absent_witness :
    GetUser demoState "zz" = .ok none ∧ GetPost demoState "zz" = .ok none ∧
    (("zz" : String) ≠ "" →
      HandleGetUser demoState (.ok ⟨"zz"⟩) = (.ok ⟨none⟩, demoState) ∧
      HandleGetPost demoState (.ok ⟨"zz"⟩) = (.ok ⟨none⟩, demoState)) :=
  get_absent_ok_none_and_200 demoState "zz" (by decide) (by decide)

lemma updateUser_absent (s : BlogState) (i n e : String)
    (h : ∀ u ∈ s.users, u.id ≠ i) :
    UpdateUser s i n e = (.error "user doesn't exist - create one first", s) := by
  rw [UpdateUser, GetUser, queryUserRow_eq_none s i h]

lemma deleteUser_absent (s : BlogState) (i : String)
    (h : ∀ u ∈ s.users, u.id ≠ i) :
    DeleteUser s i = (.error ("user does not exist for ID: " ++ i), s) := by
  rw [DeleteUser, GetUser, queryUserRow_eq_none s i h]

lemma updatePost_absent (s : BlogState) (i t c : String)
    (h : ∀ p ∈ s.posts, p.id ≠ i) :
    UpdatePost s i t c = (.error ("post doesn't exist for ID: " ++ i), s) := by
  rw [UpdatePost, GetPost, queryPostRow_eq_none s i h]

lemma deletePost_absent (s : BlogState) (i : String)
    (h : ∀ p ∈ s.posts, p.id ≠ i) :
    DeletePost s i = (.error "cannot delete post that doesn't exist", s) := by
  rw [DeletePost, GetPost, queryPostRow_eq_none s i h]

/-- Claim C4: on an id absent from the store, the four update and
delete operations perform the initial get, fail with their not-found
error and leave the store unchanged; consequently a successful
DeleteUser followed by DeleteUser of the same id fails on the second
call with the state unchanged. -/
theorem update_delete_absent_fails_unchanged :
    (∀ (s : BlogState) (i n e : String), (∀ u ∈ s.users, u.id ≠ i) →
      UpdateUser s i n e = (.error "user doesn't exist - create one first", s) ∧
      DeleteUser s i = (.error ("user does not exist for ID: " ++ i), s)) ∧
    (∀ (s : BlogState) (i t c : String), (∀ p ∈ s.posts, p.id ≠ i) →
      UpdatePost s i t c = (.error ("post doesn't exist for ID: " ++ i), s) ∧
      DeletePost s i = (.error "cannot delete post that doesn't exist", s)) ∧
    (∀ (s : BlogState) (i : String), (DeleteUser s i).1 = .ok i →
      DeleteUser (DeleteUser s i).2 i =
        (.error ("user does not exist for ID: " ++ i), (DeleteUser s i).2)) := by
  refine ⟨fun s i n e h => ⟨updateUser_absent s i n e h, deleteUser_absent s i h⟩,
    fun s i t c h => ⟨updatePost_absent s i t c h, deletePost_absent s i h⟩,
    fun s i hsucc => ?_⟩
  cases hq : queryUserRow s i with
  | none => rw [DeleteUser, GetUser, hq] at hsucc; simp at hsucc
  | some u =>
    have h2 : (DeleteUser s i).2 = deleteUserRows s i := by
      rw [DeleteUser, GetUser, hq]
    rw [h2]
    refine deleteUser_absent (deleteUserRows s i) i fun v hv => ?_
    have := (List.mem_filter.mp hv).2
    simpa using this

/-- Claim C4 witness: an update of an absent user and a double delete
of an existing user, on concrete stores. -/
theorem update_delete_absent_witness :
    UpdateUser demoState "zz" "n" "e" =
      (.error "user doesn't exist - create one first", demoState) ∧
    DeleteUser (DeleteUser twoUsers "u1").2 "u1" =
      (.error ("user does not exist for ID: " ++ "u1"),
       (DeleteUser twoUsers "u1").2) :=
  ⟨(update_delete_absent_fails_unchanged.1 demoState "zz" "n" "e" (by decide)).1,
   update_delete_absent_fails_unchanged.2.2 twoUsers "u1" rfl⟩

lemma queryPostsByUser_eq_nil (s : BlogState) (uid : String)
    (h : ∀ p ∈ s.posts, p.userID ≠ uid) : queryPostsByUser s uid = [] := by
  rw [queryPostsByUser, List.filter_eq_nil_iff]
  intro p hp
  simpa using h p hp

/-- Claim C9: when no post row carries the user_id — whether or not any
user row does — GetAllPosts returns the empty (nil) list with no error,
and for a user_id that passes the non-empty validation the handler
responds 200 with the empty list; absence of the user is never reported
as an error. -/
theorem getAllPosts_no_match_empty_200 (s : BlogState) (uid : String)
    (h : ∀ p ∈ s.posts, p.userID ≠ uid) :
    GetAllPosts s uid = .ok [] ∧
    (uid ≠ "" → HandleGetAllPosts s (.ok ⟨uid⟩) = (.ok ⟨[]⟩, s)) := by
  have h1 := queryPostsByUser_eq_nil s uid h
  refine ⟨by rw [GetAllPosts, h1], fun hne => ?_⟩
  have hbeq : (uid == "") = false := by simpa using hne
  simp [HandleGetAllPosts, hbeq, GetAllPosts, h1]

/-- Claim C9 witness: a user_id that matches no post and no user. -/
theorem getAllPosts_no_match_witness :
    GetAllPosts demoState "ghost" = .ok [] ∧
    (("ghost" : String) ≠ "" →
      HandleGetAllPosts demoState (.ok ⟨"ghost"⟩) = (.ok ⟨[]⟩, demoState)) :=
  getAllPosts_no_match_empty_200 demoState "ghost" (by decide)

/-- Claim C5 counterexample: with two users on file, updating the first
user's email (name left empty) to the second user's email does not
change that user's email and does not return the given id — the email
UPDATE hits the UNIQUE (email) constraint, so the operation errors with
the store unchanged, against the claim's universal statement. -/
theorem updateUser_email_only_counterexample :
    UpdateUser twoUsers "u1" "" "b@x" =
      (.error ("error while updating user: " ++
        "duplicate key value violates unique constraint users_email_key"),
       twoUsers) ∧
    (UpdateUser twoUsers "u1" "" "b@x").1 ≠ .ok "u1" := by
  refine ⟨rfl, fun h => ?_⟩
  exact Except.noConfusion h

lemma updateUserEmailRow_ok_shape (s s2 : BlogState) (e i : String)
    (h : updateUserEmailRow s e i = .ok s2) :
    s2 = ⟨s.users.map (fun u => if u.id == i then ⟨u.id, u.name, e⟩ else u),
          s.posts⟩ := by
  unfold updateUserEmailRow at h
  split at h
  · simp at h
  · injection h with h1
    exact h1.symm

/-- Claim C5 as amended: for every user present in the store, UpdateUser
with an empty name and a non-empty email held by no other user changes
exactly the email of that user's row — its name and id, every other
user row and all posts are unchanged — and returns the given id.  (The
amendment adds that no other user may already hold the email; otherwise
the UNIQUE (email) constraint rejects the update, per the
counterexample.) -/
theorem updateUser_email_only_frame (s : BlogState) (i e : String)
    (hpresent : ∃ u ∈ s.users, u.id = i) (hne : e ≠ "")
    (hfree : ∀ u ∈ s.users, u.id ≠ i → u.email ≠ e) :
    UpdateUser s i "" e =
      (.ok i,
       ⟨s.users.map (fun u => if u.id == i then ⟨u.id, u.name, e⟩ else u),
        s.posts⟩) := by
  obtain ⟨u, hu, hid⟩ := hpresent
  obtain ⟨v, hv⟩ : ∃ v, queryUserRow s i = some v := by
    cases hqq : queryUserRow s i with
    | some v => exact ⟨v, rfl⟩
    | none =>
      rw [queryUserRow, List.find?_eq_none] at hqq
      exact absurd (by simp [hid]) (hqq u hu)
  have hB : s.users.any (fun w => w.id != i && w.email == e) = false := by
    rw [Bool.eq_false_iff]
    intro hB
    obtain ⟨w, hw, hp2⟩ := List.any_eq_true.mp hB
    rw [Bool.and_eq_true] at hp2
    exact hfree w hw (by simpa using hp2.1) (by simpa using hp2.2)
  have hrow : updateUserEmailRow s e i =
      .ok ⟨s.users.map (fun w => if w.id == i then ⟨w.id, w.name, e⟩ else w),
           s.posts⟩ := by
    rw [updateUserEmailRow, hB]
    simp
  have hne2 : (e != "") = true := by simpa using hne
  rw [UpdateUser, GetUser, hv]
  simp only [bne_self_eq_false, Bool.false_eq_true, if_false, hne2, if_true, hrow]

/-- Claim C5 witness: the amended statement on the two-user store with
a fresh email. -/
theorem updateUser_email_only_witness :
    UpdateUser twoUsers "u1" "" "c@x" =
      (.ok "u1", ⟨[⟨"u1", "alice", "c@x"⟩, ⟨"u2", "bob", "b@x"⟩], []⟩) := by
  have h := updateUser_email_only_frame twoUsers "u1" "c@x"
    ⟨⟨"u1", "alice", "a@x"⟩, by decide, rfl⟩ (by decide) (by decide)
  exact h.trans (by rfl)

lemma refIntegrity_users_map (s : BlogState) (g : User → User)
    (hg : ∀ u, (g u).id = u.id) (h : RefIntegrity s) :
    RefIntegrity ⟨s.users.map g, s.posts⟩ := by
  intro p hp
  obtain ⟨u, hu, hid⟩ := h p hp
  exact ⟨g u, List.mem_map_of_mem g hu, by rw [hg u]; exact hid⟩

lemma storeInv_users_map (s : BlogState) (g : User → User)
    (hg : ∀ u, (g u).id = u.id) (h : StoreInv s) :
    StoreInv ⟨s.users.map g, s.posts⟩ :=
  ⟨h.1, refIntegrity_users_map s g hg h.2⟩

lemma storeInv_posts_map (s : BlogState) (g : Post → Post)
    (hg : ∀ p, (g p).id = p.id) (hg2 : ∀ p, (g p).userID = p.userID)
    (h : StoreInv s) : StoreInv ⟨s.users, s.posts.map g⟩ := by
  constructor
  · have heq : (s.posts.map g).map Post.id = s.posts.map Post.id := by
      rw [List.map_map]
      exact List.map_congr_left fun p _ => hg p
    exact heq ▸ h.1
  · intro p hp
    obtain ⟨q, hq, rfl⟩ := List.mem_map.mp hp
    obtain ⟨u, hu, hid⟩ := h.2 q hq
    exact ⟨u, hu, by rw [hg2 q]; exact hid⟩

lemma storeInv_deleteUserRows (s : BlogState) (i : String)
    (h : StoreInv s) : StoreInv (deleteUserRows s i) := by
  constructor
  · exact List.Nodup.sublist ((List.filter_sublist _).map Post.id) h.1
  · intro p hp
    have hp2 := List.mem_filter.mp hp
    obtain ⟨u, hu, hid⟩ := h.2 p hp2.1
    refine ⟨u, List.mem_filter.mpr ⟨hu, ?_⟩, hid⟩
    have hne : p.userID ≠ i := by simpa using hp2.2
    simp only [bne_iff_ne, ne_eq, hid]
    exact hne

lemma storeInv_deletePostRow (s : BlogState) (i : String)
    (h : StoreInv s) : StoreInv (deletePostRow s i) := by
  constructor
  · exact List.Nodup.sublist ((List.filter_sublist _).map Post.id) h.1
  · intro p hp
    exact h.2 p (List.mem_filter.mp hp).1

lemma storeInv_insertUserRow (s s1 : BlogState) (i n e : String)
    (hok : insertUserRow s i n e = .ok s1) (h : StoreInv s) : StoreInv s1 := by
  obtain ⟨-, rfl⟩ := insertUserRow_ok s s1 i n e hok
  refine ⟨h.1, fun p hp => ?_⟩
  obtain ⟨u, hu, hid⟩ := h.2 p hp
  exact ⟨u, List.mem_append_left _ hu, hid⟩

lemma insertPostRow_ok (s s1 : BlogState) (i uid t c : String)
    (h : insertPostRow s i uid t c = .ok s1) :
    (∀ p ∈ s.posts, p.id ≠ i) ∧ (∃ u ∈ s.users, u.id = uid) ∧
      s1 = ⟨s.users, s.posts ++ [⟨i, uid, t, c⟩]⟩ := by
  unfold insertPostRow at h
  split at h
  · simp at h
  · split at h
    · simp at h
    · rename_i h1 h2
      refine ⟨fun p hp hpe => h1 (List.any_eq_true.mpr ⟨p, hp, by simp [hpe]⟩),
        ?_, by injection h with h3; exact h3.symm⟩
      rw [Bool.not_eq_true', Bool.not_eq_false] at h2
      obtain ⟨u, hu, hid⟩ := List.any_eq_true.mp h2
      exact ⟨u, hu, by simpa using hid⟩

lemma storeInv_insertPostRow (s s1 : BlogState) (i uid t c : String)
    (hok : insertPostRow s i uid t c = .ok s1) (h : StoreInv s) :
    StoreInv s1 := by
  obtain ⟨hfresh, hexists, rfl⟩ := insertPostRow_ok s s1 i uid t c hok
  constructor
  · show ((s.posts ++ [(⟨i, uid, t, c⟩ : Post)]).map Post.id).Nodup
    rw [List.map_append]
    refine List.Nodup.append h.1 (by simp) ?_
    intro a ha hb
    rw [List.mem_map] at hb
    obtain ⟨q, hq, rfl⟩ := hb
    rw [List.mem_singleton] at hq
    subst hq
    obtain ⟨p, hp, hpe⟩ := List.mem_map.mp ha
    exact hfresh p hp hpe
  · intro p hp
    rcases List.mem_append.mp hp with hp1 | hp2
    · exact h.2 p hp1
    · rw [List.mem_singleton] at hp2
      subst hp2
      exact hexists

lemma storeInv_applyOp (s : BlogState) (op : Op) (h : StoreInv s) :
    StoreInv (applyOp s op) := by
  cases op with
  | createUser g n e =>
    show StoreInv (CreateUser s g n e).2
    rw [CreateUser]
    cases hins : insertUserRow s g n e with
    | error m => exact h
    | ok s1 => exact storeInv_insertUserRow s s1 g n e hins h
  | updateUser i n e =>
    show StoreInv (UpdateUser s i n e).2
    rw [UpdateUser, GetUser]
    cases hq : queryUserRow s i with
    | none => exact h
    | some u =>
      dsimp only
      have hs1 : StoreInv (if (n != "") = true then updateUserNameRow s n i else s) := by
        split
        · exact storeInv_users_map s _ (fun v => by by_cases hc : (v.id == i) = true <;> simp [hc]) h
        · exact h
      split
      · cases hrow : updateUserEmailRow
            (if (n != "") = true then updateUserNameRow s n i else s) e i with
        | error m => exact hs1
        | ok s2 =>
          have hshape := updateUserEmailRow_ok_shape _ s2 e i hrow
          show StoreInv s2
          rw [hshape]
          exact storeInv_users_map _ _ (fun v => by by_cases hc : (v.id == i) = true <;> simp [hc]) hs1
      · exact hs1
  | deleteUser i =>
    show StoreInv (DeleteUser s i).2
    rw [DeleteUser, GetUser]
    cases hq : queryUserRow s i with
    | none => exact h
    | some u => exact storeInv_deleteUserRows s i h
  | createPost g uid t c =>
    show StoreInv (CreatePost s g uid t c).2
    rw [CreatePost]
    cases hins : insertPostRow s g uid t c with
    | error m => exact h
    | ok s1 => exact storeInv_insertPostRow s s1 g uid t c hins h
  | updatePost i t c =>
    show StoreInv (UpdatePost s i t c).2
    rw [UpdatePost, GetPost]
    cases hq : queryPostRow s i with
    | none => exact h
    | some p =>
      dsimp only
      have hs1 : StoreInv (if (t != "") = true then updatePostTitleRow s t i else s) := by
        split
        · exact storeInv_posts_map s _ (fun q => by by_cases hc : (q.id == i) = true <;> simp [hc])
            (fun q => by by_cases hc : (q.id == i) = true <;> simp [hc]) h
        · exact h
      split
      · exact storeInv_posts_map _ _ (fun q => by by_cases hc : (q.id == i) = true <;> simp [hc])
          (fun q => by by_cases hc : (q.id == i) = true <;> simp [hc]) hs1
      · exact hs1
  | deletePost i =>
    show StoreInv (DeletePost s i).2
    rw [DeletePost, GetPost]
    cases hq : queryPostRow s i with
    | none => exact h
    | some p => exact storeInv_deletePostRow s i h

lemma storeInv_foldl (ops : List Op) (s : BlogState) (h : StoreInv s) :
    StoreInv (List.foldl applyOp s ops) := by
  induction ops generalizing s with
  | nil => exact h
  | cons op rest ih => exact ih (applyOp s op) (storeInv_applyOp s op h)

lemma storeInv_runOps (ops : List Op) : StoreInv (runOps ops) :=
  storeInv_foldl ops initialState (by decide)

/-- Claim C2: every store state reachable from the empty store by
storage-layer operations satisfies referential integrity — each post's
user_id names an existing user — and on any reachable state, after a
successful DeleteUser(u) no post with user_id u remains and GetPost on
any post that had user_id u returns an absent result. -/
theorem reachable_refIntegrity_and_cascade :
    (∀ ops : List Op, RefIntegrity (runOps ops)) ∧
    (∀ (ops : List Op) (uid : String),
      (DeleteUser (runOps ops) uid).1 = .ok uid →
      (∀ q ∈ (DeleteUser (runOps ops) uid).2.posts, q.userID ≠ uid) ∧
      (∀ p ∈ (runOps ops).posts, p.userID = uid →
        GetPost (DeleteUser (runOps ops) uid).2 p.id = .ok none)) := by
  refine ⟨fun ops => (storeInv_runOps ops).2, fun ops uid hsucc => ?_⟩
  have hinv := storeInv_runOps ops
  cases hq : queryUserRow (runOps ops) uid with
  | none =>
    rw [DeleteUser, GetUser, hq] at hsucc
    simp at hsucc
  | some u =>
    have h2 : (DeleteUser (runOps ops) uid).2 = deleteUserRows (runOps ops) uid := by
      rw [DeleteUser, GetUser, hq]
    rw [h2]
    constructor
    · intro q hq2
      have := (List.mem_filter.mp hq2).2
      simpa using this
    · intro p hp hpu
      rw [GetPost]
      have hnone : queryPostRow (deleteUserRows (runOps ops) uid) p.id = none := by
        rw [queryPostRow, List.find?_eq_none]
        intro q hq2
        have hqmem := List.mem_filter.mp hq2
        have hqne : q.userID ≠ uid := by simpa using hqmem.2
        intro hbeq
        have hqid : q.id = p.id := by simpa using hbeq
        have hqp : q = p :=
          List.inj_on_of_nodup_map hinv.1 hqmem.1 hp hqid
        rw [hqp, hpu] at hqne
        exact hqne rfl
      rw [hnone]

/-- Claim C2 witness: the cascade on a concrete reachable store — one
created user owning one created post; after deleting the user, getting
the post yields an absent result. -/
theorem reachable_cascade_witness :
    GetPost (DeleteUser (runOps
      [.createUser "u1" "tiny cat" "tiny@cat.com",
       .createPost "p1" "u1" "title" "content"]) "u1").2 "p1" = .ok none := by
  have h := reachable_refIntegrity_and_cascade.2
    [.createUser "u1" "tiny cat" "tiny@cat.com",
     .createPost "p1" "u1" "title" "content"] "u1" rfl
  exact h.2 ⟨"p1", "u1", "title", "content"⟩ (by decide) rfl
